import Mathlib

/-!
Verification of the timetable generator (CP-SAT pipeline in
`lastThingIHope.py` and backtracking scheduler in `scheduler.py`).
All definitions are shallow embeddings of the Python source.
-/

namespace TT

/-- Room record (`rooms[]` entries). -/
structure Room where
  room_id : String
  type : String
  capacity : Nat
  building : String := ""
deriving DecidableEq, Repr

/-- Instructor record (`instructors[]` entries). -/
structure Instructor where
  instr_id : String
  name : String := ""
  role : String
  qualified_courses : List String
deriving DecidableEq, Repr

/-- Group record (`groups[]` entries). -/
structure Group where
  group_id : String
  year : Nat
  specialization : Option String := none
  sections_count : Nat := 0
  students_count : Nat := 0
deriving DecidableEq, Repr

/-- Section record (`sections[]` entries). -/
structure Section where
  section_id : String
  group_id : String
  students_count : Nat := 0
deriving DecidableEq, Repr

/-- A course kind entry (`kinds[]`), as the dict read by both pipelines.
`sessions_per_week` is kept optional since the two consumers default it
differently; `max_sections_together` and `ignore_capacity` are stored with
the defaults `scheduler.py` applies at parse time. -/
structure Kind where
  type : String
  length : Option Nat := none
  lab_type : Option String := none
  sessions_per_week : Option Nat := none
  max_sections_together : Nat := 1
  ignore_capacity : Bool := false
deriving DecidableEq, Repr

/-- Course record (`courses[]` entries). -/
structure Course where
  course_id : String
  name : String := ""
  year : Nat
  major : Option String := none
  kinds : List Kind := []
  full_year : Bool := false
  is_project : Bool := false
deriving DecidableEq, Repr

/-- A generated session instance (`generate_instances` output dicts).
Absent dict keys are the field defaults (`inst.get(...)` semantics). -/
structure Instance where
  instance_id : String := ""
  course_id : String := ""
  type : String := ""
  group_id : Option String := none
  section_id : Option String := none
  sessions_per_week : Nat := 1
  length_minutes : Option Nat := none
  lab_type : Option String := none
  expected_students : Nat := 0
  has_instructor : Bool := true
  is_project : Bool := false
deriving DecidableEq, Repr

/-- The input document as consumed by `quick_feasibility_checks` and
`build_and_solve` (rooms, instructors, instances). -/
structure Data where
  rooms : List Room := []
  instructors : List Instructor := []
  groups : List Group := []
  sections : List Section := []
  instances : List Instance := []
deriving Repr

/-- The `params` dict of `build_and_solve`: day-name list, periods per day and
base sub-slot minutes. -/
structure Params where
  days : List String
  periods_per_day : Nat
  base_slot_minutes : Nat
deriving Repr

/-- Module constant `DAYS` of `lastThingIHope.py`. -/
def DAYS : List String := ["Sunday", "Monday", "Tuesday", "Wednesday", "Thursday"]

/-- Module constant `PERIODS_PER_DAY` of `lastThingIHope.py`. -/
def PERIODS_PER_DAY : Nat := 4

/-- Module constant `BASE_SLOT_MINUTES` of `lastThingIHope.py`. -/
def BASE_SLOT_MINUTES : Nat := 45

/-- Function `valid_room_types_for_session` of `lastThingIHope.py`. -/
def valid_room_types_for_session (session_type : String) : List String :=
  if session_type = "Lecture" then ["classroom", "theater", "hall"]
  else if session_type = "Tut" then ["classroom", "computer lab", "hall"]
  else if session_type = "Lab" then
    ["computer lab", "electronics lab", "physics lab", "chemistry lab", "bio lab"]
  else if session_type = "Project" then ["hall", "theater", "classroom"]
  else ["classroom"]

/-- Python truthiness of an optional string (`None` and `""` are falsy). -/
def truthyStr : Option String → Bool
  | none => false
  | some s => decide (s ≠ "")

/-- Python `not inst.get('lab_type')`: the optional string is falsy. -/
def labTypeFalsy (o : Option String) : Bool := !truthyStr o

/-- Project length coercion in `generate_instances`:
`klen if (klen and klen >= PERIODS_PER_DAY * 90) else PERIODS_PER_DAY * 90`. -/
def projectLen (klen : Option Nat) : Nat :=
  match klen with
  | some k => if k ≠ 0 ∧ PERIODS_PER_DAY * 90 ≤ k then k else PERIODS_PER_DAY * 90
  | none => PERIODS_PER_DAY * 90

/-- Eligible groups of a course (`target_groups` in `generate_instances`):
year matches and major is null or matches the group's specialization. -/
def targetGroups (course : Course) (groups : List Group) : List Group :=
  groups.filter (fun g =>
    decide (g.year = course.year) &&
    (decide (course.major = none) || decide (g.specialization = course.major)))

/-- The `target_sections` list in `generate_instances`: sections whose group is eligible. -/
def targetSections (course : Course) (groups : List Group) (sections : List Section) :
    List Section :=
  sections.filter (fun s =>
    decide (s.group_id ∈ (targetGroups course groups).map (·.group_id)))

/-- Project instance dict built by `generate_instances`. -/
def mkProjectInstance (c : Course) (k : Kind) (g : Group) : Instance :=
  { instance_id := c.course_id ++ "_" ++ g.group_id ++ "_PROJECT"
    course_id := c.course_id
    type := "Project"
    group_id := some g.group_id
    sessions_per_week := 1
    length_minutes := some (projectLen k.length)
    expected_students := g.students_count
    has_instructor := false
    is_project := true }

/-- Lecture instance dict built by `generate_instances`. -/
def mkLectureInstance (c : Course) (k : Kind) (g : Group) : Instance :=
  { instance_id := c.course_id ++ "_" ++ g.group_id ++ "_LEC"
    course_id := c.course_id
    type := "Lecture"
    group_id := some g.group_id
    sessions_per_week := k.sessions_per_week.getD 2
    length_minutes := k.length
    expected_students := g.students_count }

/-- Tut instance dict built by `generate_instances`. -/
def mkTutInstance (c : Course) (k : Kind) (s : Section) : Instance :=
  { instance_id := c.course_id ++ "_" ++ s.section_id ++ "_TUT"
    course_id := c.course_id
    type := "Tut"
    section_id := some s.section_id
    sessions_per_week := k.sessions_per_week.getD 1
    length_minutes := k.length
    expected_students := s.students_count }

/-- Lab instance dict built by `generate_instances`. -/
def mkLabInstance (c : Course) (k : Kind) (s : Section) : Instance :=
  { instance_id := c.course_id ++ "_" ++ s.section_id ++ "_LAB"
    course_id := c.course_id
    type := "Lab"
    section_id := some s.section_id
    sessions_per_week := k.sessions_per_week.getD 1
    length_minutes := k.length
    lab_type := k.lab_type
    expected_students := s.students_count }

/-- Body of the per-kind branch of `generate_instances` (the project check,
then dispatch on the kind type; unknown kinds are skipped). -/
def instancesForKind (course : Course) (kind : Kind) (tg : List Group)
    (ts : List Section) : List Instance :=
  if course.is_project then tg.map (mkProjectInstance course kind)
  else if kind.type = "Lecture" then tg.map (mkLectureInstance course kind)
  else if kind.type = "Tut" then ts.map (mkTutInstance course kind)
  else if kind.type = "Lab" then ts.map (mkLabInstance course kind)
  else []

/-- Function `generate_instances` of `lastThingIHope.py`. -/
def generate_instances (courses : List Course) (groups : List Group)
    (sections : List Section) : List Instance :=
  courses.flatMap (fun c =>
    c.kinds.flatMap (fun k =>
      instancesForKind c k (targetGroups c groups) (targetSections c groups sections)))

/-- Kinds of error entries appended by `quick_feasibility_checks`
(each Python entry is a string starting with the instance id). -/
inductive ErrKind where
  | invalidLength
  | labTypeMissing
  | noRoom
  | noInstructor
deriving DecidableEq, Repr

/-- A pre-check error entry: the instance id it names plus which check failed. -/
structure ErrEntry where
  instId : String
  kind : ErrKind
deriving DecidableEq, Repr

/-- Room acceptance test of the pre-check's room loop in
`quick_feasibility_checks`: admissible type, exact lab-type match for Labs,
and the capacity test (skipped when `expected_students` is falsy). -/
def quickRoomOk (inst : Instance) (r : Room) : Bool :=
  decide (r.type ∈ valid_room_types_for_session inst.type) &&
  (!(decide (inst.type = "Lab")) || decide (inst.lab_type = some r.type)) &&
  (!(decide (inst.expected_students ≠ 0) && decide (r.capacity < inst.expected_students)))

/-- Instructor acceptance test shared by the pre-check and the CP domain
construction: qualified for the course, Professor for Lectures, TA for
Labs and Tuts. -/
def instrOk (inst : Instance) (instr : Instructor) : Bool :=
  decide (inst.course_id ∈ instr.qualified_courses) &&
  ((decide (inst.type = "Lecture") && decide (instr.role = "Professor")) ||
   (decide (inst.type ∈ ["Lab", "Tut"]) && decide (instr.role = "TA")))

/-- The error entries `quick_feasibility_checks` appends for one instance:
length check, then either the missing-lab-type early exit (the Python
`continue`) or the room and instructor checks. -/
def perInstanceErrors (rooms : List Room) (instructors : List Instructor)
    (base_slot_minutes : Nat) (inst : Instance) : List ErrEntry :=
  (match inst.length_minutes with
   | none => [⟨inst.instance_id, .invalidLength⟩]
   | some L => if L % base_slot_minutes ≠ 0 then [⟨inst.instance_id, .invalidLength⟩] else []) ++
  (if inst.type = "Lab" ∧ labTypeFalsy inst.lab_type then
    [⟨inst.instance_id, .labTypeMissing⟩]
   else
    (if rooms.any (quickRoomOk inst) then [] else [⟨inst.instance_id, .noRoom⟩]) ++
    (if inst.type ≠ "Project" then
      (if instructors.any (instrOk inst) then [] else [⟨inst.instance_id, .noInstructor⟩])
     else []))

/-- Function `quick_feasibility_checks` of `lastThingIHope.py`. -/
def quick_feasibility_checks (data : Data) (params : Params) : List ErrEntry :=
  (data.instances.map
    (perInstanceErrors data.rooms data.instructors params.base_slot_minutes)).flatten

/-- The quantity `slots_per_day = periods * (90 // base)` in `build_and_solve`. -/
def slotsPerDay (params : Params) : Nat :=
  params.periods_per_day * (90 / params.base_slot_minutes)

/-- The quantity `total_subslots = len(days) * slots_per_day` in `build_and_solve`. -/
def totalSubslots (params : Params) : Nat :=
  params.days.length * slotsPerDay params

/-- Function `subslots_needed` of `lastThingIHope.py` applied to an instance's
`length_minutes` (the pre-check guarantees the length is present and
divisible by the base before the CP model is built). -/
def neededOf (inst : Instance) (base : Nat) : Nat :=
  (inst.length_minutes.getD 0) / base

/-- Default room used with `List.getD` in indexed quantifications. -/
def dRoom : Room := ⟨"", "", 0, ""⟩

/-- Default instructor used with `List.getD`. -/
def dInstr : Instructor := ⟨"", "", "", []⟩

/-- Start-variable domain of `build_and_solve`: sub-slot indices in
`range(0, total_subslots - needed + 1)` whose interval does not cross a
day boundary. -/
def validStarts (total spd needed : Nat) : List Nat :=
  (List.range (total + 1 - needed)).filter
    (fun s => decide (s / spd = (s + needed - 1) / spd))

/-- Room candidate indices computed in `build_and_solve` (before the
fallback): admissible type, declared lab-type when truthy, capacity unless
`expected_students` is falsy. -/
def buildRoomOk (inst : Instance) (r : Room) : Bool :=
  decide (r.type ∈ valid_room_types_for_session inst.type) &&
  (!(decide (inst.type = "Lab") && truthyStr inst.lab_type) ||
    decide (inst.lab_type = some r.type)) &&
  (!(decide (inst.expected_students ≠ 0) && decide (r.capacity < inst.expected_students)))

/-- The `room_candidates` list of `build_and_solve` for one occurrence. -/
def room_candidates (rooms : List Room) (inst : Instance) : List Nat :=
  (List.range rooms.length).filter
    (fun i => buildRoomOk inst (rooms.getD i dRoom))

/-- The room-variable domain of `build_and_solve`, including the fallback
that widens an empty candidate list to every room (`[0]` when there are no
rooms at all). -/
def roomDomain (rooms : List Room) (inst : Instance) : List Nat :=
  let c := room_candidates rooms inst
  if c = [] then (if rooms = [] then [0] else List.range rooms.length) else c

/-- The `instr_candidates` list of `build_and_solve` for one occurrence. -/
def instr_candidates (instructors : List Instructor) (inst : Instance) : List Nat :=
  (List.range instructors.length).filter
    (fun i => instrOk inst (instructors.getD i dInstr))

/-- The instructor variable of `build_and_solve`: absent for Projects, for
`has_instructor = False`, and when the candidate list is empty; otherwise
its domain is the candidate list. -/
def instr_domain (instructors : List Instructor) (inst : Instance) :
    Option (List Nat) :=
  if inst.type = "Project" ∨ inst.has_instructor = false then none
  else
    let c := instr_candidates instructors inst
    if c = [] then none else some c

/-- Occurrence expansion of `build_and_solve`: each instance is repeated
`sessions_per_week` times, tagged with its repetition index `occ`. -/
def occurrencesOf (instances : List Instance) : List (Instance × Nat) :=
  instances.flatMap (fun inst =>
    (List.range inst.sessions_per_week).map (fun k => (inst, k)))

/-- A CP-SAT assignment to one occurrence's variables: absolute start
sub-slot, room index, optional instructor index. The day variable is
functionally linked to the start by the allowed-assignments table
(`day = start / slots_per_day`), so it is derived here. -/
structure OccAssign where
  start : Nat
  room : Nat
  instr : Option Nat := none
deriving DecidableEq, Repr

/-- The `share_students` flag computed in `build_and_solve`: both truthy
group ids equal, or both truthy section ids equal. -/
def shareStudentsCode (i j : Instance) : Bool :=
  (truthyStr i.group_id && truthyStr j.group_id && decide (i.group_id = j.group_id)) ||
  (truthyStr i.section_id && truthyStr j.section_id && decide (i.section_id = j.section_id))

/-- Literal `i_before_j or j_before_i`: the two occupied intervals are disjoint. -/
def intervalsDisjoint (s1 l1 s2 l2 : Nat) : Bool :=
  decide (s1 + l1 ≤ s2) || decide (s2 + l2 ≤ s1)

/-- Per-occurrence variable-domain membership in the CP model of
`build_and_solve`. -/
def occOK (rooms : List Room) (instructors : List Instructor) (params : Params)
    (inst : Instance) (a : OccAssign) : Bool :=
  decide (a.start ∈ validStarts (totalSubslots params) (slotsPerDay params)
    (neededOf inst params.base_slot_minutes)) &&
  decide (a.room ∈ roomDomain rooms inst) &&
  (match instr_domain instructors inst, a.instr with
   | none, none => true
   | none, some _ => false
   | some _, none => false
   | some d, some x => decide (x ∈ d))

/-- The pairwise constraints `build_and_solve` posts for occurrences
`i < j`: same room forces disjoint intervals; shared students (the code's
`share_students`) force disjoint intervals; equal present instructors on
the same day force disjoint intervals; same day and same room force
disjoint intervals. -/
def pairOK (spd base : Nat) (ii jj : Instance) (ai aj : OccAssign) : Bool :=
  let li := neededOf ii base
  let lj := neededOf jj base
  let dis := intervalsDisjoint ai.start li aj.start lj
  let sameRoom := decide (ai.room = aj.room)
  let sameDay := decide (ai.start / spd = aj.start / spd)
  let sameInstr :=
    match ai.instr, aj.instr with
    | some a, some b => decide (a = b)
    | _, _ => false
  (!sameRoom || dis) &&
  (!shareStudentsCode ii jj || dis) &&
  (!(sameInstr && sameDay) || dis) &&
  (!(sameDay && sameRoom) || dis)

/-- Default values used with `List.getD` in indexed quantifications. -/
def dInst : Instance := {}

/-- Default occurrence assignment for `List.getD`. -/
def dOcc : OccAssign := { start := 0, room := 0 }

/-- A full assignment satisfies the CP model of `build_and_solve`: one
variable block per occurrence within its domains, and all pairwise
constraints. A schedule is returned by the CP solver exactly when it is
such a satisfying assignment. -/
def cpSat (data : Data) (params : Params) (occs : List (Instance × Nat))
    (asg : List OccAssign) : Bool :=
  decide (occs.length = asg.length) &&
  (List.range occs.length).all (fun idx =>
    occOK data.rooms data.instructors params (occs.getD idx (dInst, 0)).1
      (asg.getD idx dOcc)) &&
  (List.range occs.length).all (fun j =>
    (List.range j).all (fun i =>
      pairOK (slotsPerDay params) params.base_slot_minutes
        (occs.getD i (dInst, 0)).1 (occs.getD j (dInst, 0)).1
        (asg.getD i dOcc) (asg.getD j dOcc)))

/-- One entry of the `schedule` list built by `build_and_solve` on success. -/
structure ScheduleRecord where
  instance_id : String
  course_id : String
  type : String
  day : String
  period : Nat
  subslot : Nat
  start_subslot_index : Nat
  length_subslots : Nat
  room_id : String
  room_type : String
  instructor_id : Option String
  group_id : Option String
  section_id : Option String
deriving DecidableEq, Repr

/-- The schedule entry `build_and_solve` emits for occurrence `idx`
(instance `inst`, repetition index `occ`, assigned values `a`). -/
def mkRecord (rooms : List Room) (instructors : List Instructor) (params : Params)
    (inst : Instance) (occ : Nat) (a : OccAssign) : ScheduleRecord :=
  let spd := slotsPerDay params
  let day := a.start / spd
  let sub := a.start % spd
  { instance_id := inst.instance_id ++ (if occ ≠ 0 then "#" ++ toString occ else "")
    course_id := inst.course_id
    type := inst.type
    day := DAYS.getD day ""
    period := sub / (90 / BASE_SLOT_MINUTES) + 1
    subslot := sub % (90 / BASE_SLOT_MINUTES)
    start_subslot_index := a.start
    length_subslots := neededOf inst BASE_SLOT_MINUTES
    room_id := (rooms.getD a.room dRoom).room_id
    room_type := (rooms.getD a.room dRoom).type
    instructor_id := a.instr.map (fun i => (instructors.getD i dInstr).instr_id)
    group_id := inst.group_id
    section_id := inst.section_id }

/-- The `schedule` list of `build_and_solve`: one record per occurrence,
in occurrence order. -/
def cpSchedule (data : Data) (params : Params) (occs : List (Instance × Nat))
    (asg : List OccAssign) : List ScheduleRecord :=
  (List.range occs.length).map (fun idx =>
    mkRecord data.rooms data.instructors params (occs.getD idx (dInst, 0)).1
      (occs.getD idx (dInst, 0)).2 (asg.getD idx dOcc))

/-- Result dispatch at the top of `build_and_solve`: pre-check errors stop
the call before any model is built; otherwise the expanded occurrences are
handed to the CP search. -/
inductive BuildResult where
  | inputError (errors : List ErrEntry)
  | search (occs : List (Instance × Nat))
deriving Repr

/-- The head of `build_and_solve` of `lastThingIHope.py`: run
`quick_feasibility_checks`, return `INPUT_ERROR` with the error list when
it is non-empty, otherwise build the occurrence list and enter the solver. -/
def build_and_solve (data : Data) (params : Params) : BuildResult :=
  if quick_feasibility_checks data params = [] then .search (occurrencesOf data.instances)
  else .inputError (quick_feasibility_checks data params)

/-- Modelled from the spec: the cohort of a generated occurrence, as the
set of section ids that attend it (a group occurrence's cohort is every
section of the group; a section occurrence's cohort is that section).
Used only to state the student-exclusion property. -/
def specCohort (sections : List Section) (inst : Instance) : List String :=
  match inst.group_id with
  | some g => (sections.filter (fun s => decide (s.group_id = g))).map (·.section_id)
  | none =>
    match inst.section_id with
    | some s => [s]
    | none => []

/-- Two occurrences share students when their cohorts intersect (§3 of the
spec). -/
def cohortsShare (sections : List Section) (i j : Instance) : Bool :=
  (specCohort sections i).any (fun s => decide (s ∈ specCohort sections j))

namespace Scheduler

/-- Constant `self.PERIODS_PER_DAY` of `BacktrackingScheduler` in `scheduler.py`. -/
def PERIODS_PER_DAY : Nat := 8

/-- An `Assignment` dataclass of `scheduler.py`. -/
structure Assignment where
  course_id : String
  session_type : String
  day : Nat
  period : Nat
  sections : List String
  duration : Nat
  instructor_id : String
  room_id : String
deriving DecidableEq, Repr

/-- The mutable solver state of `BacktrackingScheduler`: the
`(section_id, day, period) -> Assignment` timetable, the busy sets, and
the per-section scheduled-session tracking. -/
structure BTState where
  timetable : String × Nat × Nat → Option Assignment
  instructor_busy : Finset (String × Nat × Nat)
  room_busy : Finset (String × Nat × Nat)
  scheduled_sessions : String → Finset (String × String)

/-- The timetable keys an assignment occupies: one cell per
`(section, period offset)`. -/
def tKeys (a : Assignment) : List (String × Nat × Nat) :=
  a.sections.flatMap (fun sid =>
    (List.range a.duration).map (fun k => (sid, a.day, a.period + k)))

/-- The instructor-busy keys of an assignment. -/
def iKeys (a : Assignment) : List (String × Nat × Nat) :=
  (List.range a.duration).map (fun k => (a.instructor_id, a.day, a.period + k))

/-- The room-busy keys of an assignment. -/
def rKeys (a : Assignment) : List (String × Nat × Nat) :=
  (List.range a.duration).map (fun k => (a.room_id, a.day, a.period + k))

/-- Method `_is_valid_assignment` of `BacktrackingScheduler`: 90-minute
(2-period) sessions must start at an even period, the interval must fit in
the day, and no occupied section, instructor or room cell may be reused
(room cells are skipped for the `"N/A"` placeholder). -/
def _is_valid_assignment (st : BTState) (sections : List String)
    (day period duration : Nat) (instructor_id room_id : String) : Bool :=
  !(decide (duration = 2) && decide (period % 2 ≠ 0)) &&
  decide (period + duration ≤ PERIODS_PER_DAY) &&
  !(sections.any (fun sid =>
    (List.range duration).any (fun k => (st.timetable (sid, day, period + k)).isSome))) &&
  !((List.range duration).any (fun k =>
    decide ((instructor_id, day, period + k) ∈ st.instructor_busy))) &&
  !(decide (room_id ≠ "N/A") &&
    (List.range duration).any (fun k =>
      decide ((room_id, day, period + k) ∈ st.room_busy)))

/-- Method `_place_assignment` of `BacktrackingScheduler`. -/
def _place_assignment (st : BTState) (a : Assignment) : BTState :=
  { timetable :=
      (tKeys a).foldl (fun m key => Function.update m key (some a)) st.timetable
    instructor_busy :=
      (iKeys a).foldl (fun s key => insert key s) st.instructor_busy
    room_busy :=
      if a.room_id ≠ "N/A" then
        (rKeys a).foldl (fun s key => insert key s) st.room_busy
      else st.room_busy
    scheduled_sessions := fun sid =>
      if sid ∈ a.sections then
        insert (a.course_id, a.session_type) (st.scheduled_sessions sid)
      else st.scheduled_sessions sid }

/-- Method `_remove_assignment` of `BacktrackingScheduler` (deleting a key that is
present is modelled as setting it back to `none`). -/
def _remove_assignment (st : BTState) (a : Assignment) : BTState :=
  { timetable :=
      (tKeys a).foldl (fun m key => Function.update m key none) st.timetable
    instructor_busy :=
      (iKeys a).foldl (fun s key => s.erase key) st.instructor_busy
    room_busy :=
      if a.room_id ≠ "N/A" then
        (rKeys a).foldl (fun s key => s.erase key) st.room_busy
      else st.room_busy
    scheduled_sessions := fun sid =>
      if sid ∈ a.sections then
        (st.scheduled_sessions sid).erase (a.course_id, a.session_type)
      else st.scheduled_sessions sid }

/-- Room acceptance test of `_get_suitable_rooms`: capacity unless
`ignore_capacity`, then the type dispatch (Lab: exact truthy lab-type;
Lecture: theaters only under `ignore_capacity`, else classrooms and
theaters; Tut: classrooms; anything else: nothing). -/
def suitableRoomOk (session_type : String) (students_count : Nat)
    (lab_type : Option String) (ignore_capacity : Bool) (room : Room) : Bool :=
  (ignore_capacity || decide (students_count ≤ room.capacity)) &&
  (if session_type = "Lab" then
    truthyStr lab_type && decide (lab_type = some room.type)
   else if session_type = "Lecture" then
    (if ignore_capacity then decide (room.type = "theater")
     else decide (room.type = "classroom" ∨ room.type = "theater"))
   else if session_type = "Tut" then decide (room.type = "classroom")
   else false)

/-- Method `_get_suitable_rooms` of `BacktrackingScheduler`. -/
def _get_suitable_rooms (rooms : List Room) (session_type : String)
    (students_count : Nat) (lab_type : Option String) (ignore_capacity : Bool) :
    List String :=
  (rooms.filter (suitableRoomOk session_type students_count lab_type ignore_capacity)).map
    (·.room_id)

/-- Method `_get_qualified_instructors` of `BacktrackingScheduler`. -/
def _get_qualified_instructors (instructors : List Instructor) (course_id : String)
    (session_type : String) : List String :=
  (instructors.filter (fun instr =>
    decide (course_id ∈ instr.qualified_courses) &&
    ((decide (session_type = "Lecture") && decide (instr.role = "Professor")) ||
     (decide (session_type ∈ ["Tut", "Lab"]) && decide (instr.role = "TA"))))).map
    (·.instr_id)

/-- Index `sections_by_group[gid]` built by `_build_indexes`. -/
def sectionsByGroup (sections : List Section) (gid : String) : List Section :=
  sections.filter (fun s => decide (s.group_id = gid))

/-- Index `sections_by_year[year]` built by `_build_indexes`: iterate the groups
in order and append each group's sections. -/
def sectionsByYear (groups : List Group) (sections : List Section) (year : Nat) :
    List Section :=
  (groups.filter (fun g => decide (g.year = year))).flatMap
    (fun g => sectionsByGroup sections g.group_id)

/-- Eligibility test of a section for a course in the Tut and Lab branches
of `_get_target_sections` (`group_by_id` lookup; a dangling group id would
raise in Python and is modelled as not eligible). -/
def sectionEligible (groups : List Group) (course : Course) (s : Section) : Bool :=
  match groups.find? (fun g => decide (g.group_id = s.group_id)) with
  | some g =>
    decide (g.year = course.year) &&
    (decide (course.major = none) || decide (g.specialization = course.major))
  | none => false

/-- The "smart grouping" loop of the Lab branch of `_get_target_sections`. -/
def labChunks (maxPer : Nat) (secs : List Section) : List (List String) :=
  let r := secs.foldl
    (fun (acc : List (List String) × List String) s =>
      if acc.2.length < maxPer then (acc.1, acc.2 ++ [s.section_id])
      else (acc.1 ++ [acc.2], [s.section_id]))
    ([], [])
  let gs := if r.2.isEmpty then r.1 else r.1 ++ [r.2]
  if gs.isEmpty then secs.map (fun s => [s.section_id]) else gs

/-- Method `_get_target_sections` of `BacktrackingScheduler`. -/
def _get_target_sections (groups : List Group) (sections : List Section)
    (course : Course) (kind : Kind) (ref : Section) : List (List String) :=
  if course.is_project then
    [(sectionsByGroup sections ref.group_id).map (·.section_id)]
  else if course.full_year then
    (if kind.type = "Lecture" then
      [(sectionsByYear groups sections course.year).map (·.section_id)]
     else if kind.type = "Lab" then
      [(sectionsByYear groups sections course.year).map (·.section_id)]
     else
      (sectionsByYear groups sections course.year).map (fun s => [s.section_id]))
  else if kind.type = "Lecture" then
    (groups.filter (fun g =>
      decide (g.year = course.year) &&
      (decide (course.major = none) || decide (g.specialization = course.major)))).map
      (fun g => (sectionsByGroup sections g.group_id).map (·.section_id))
  else if kind.type = "Tut" then
    (sections.filter (sectionEligible groups course)).map (fun s => [s.section_id])
  else if kind.type = "Lab" then
    labChunks kind.max_sections_together (sections.filter (sectionEligible groups course))
  else []

/-- Method `_get_all_sessions_to_schedule` of `BacktrackingScheduler`: for every
course and kind, one session per target section group (the reference
section is `self.sections[0]`, only relevant for projects). -/
def _get_all_sessions_to_schedule (courses : List Course) (groups : List Group)
    (sections : List Section) : List (Course × Kind × List String) :=
  courses.flatMap (fun c =>
    c.kinds.flatMap (fun k =>
      (_get_target_sections groups sections c k
        (sections.getD 0 ⟨"", "", 0⟩)).map (fun ts => (c, k, ts))))

end Scheduler

/-! Concrete inputs used by counterexamples and witnesses. -/

/-- Default parameters: five named days, 4 periods of two 45-minute
sub-slots (the CP pipeline's configuration). -/
def exParams : Params := ⟨DAYS, 4, 45⟩

/-- A lecture occurrence of course `C1` for group `G1`, as
`generate_instances` emits it. -/
def exLec : Instance :=
  { instance_id := "C1_G1_LEC", course_id := "C1", type := "Lecture",
    group_id := some "G1", sessions_per_week := 2,
    length_minutes := some 90, expected_students := 20 }

/-- A tutorial occurrence of course `C1` for section `S1` of group `G1`. -/
def exTut : Instance :=
  { instance_id := "C1_S1_TUT", course_id := "C1", type := "Tut",
    section_id := some "S1", sessions_per_week := 1,
    length_minutes := some 90, expected_students := 20 }

/-- A small feasible catalog: two classrooms, one Professor and one TA
both qualified for `C1`, one group with one section. -/
def exData : Data :=
  { rooms := [⟨"R1", "classroom", 100, "B"⟩, ⟨"R2", "classroom", 100, "B"⟩]
    instructors := [⟨"P1", "", "Professor", ["C1"]⟩, ⟨"T1", "", "TA", ["C1"]⟩]
    groups := [{ group_id := "G1", year := 1 }]
    sections := [⟨"S1", "G1", 20⟩]
    instances := [exLec, exTut] }

/-- The expanded occurrence list of `exData` (two lecture repetitions and
one tutorial). -/
def exOccs : List (Instance × Nat) := occurrencesOf exData.instances

/-- A CP assignment for `exOccs` in which the tutorial of section `S1`
overlaps the first lecture of its own group `G1` (same start, different
rooms, different instructors). -/
def exAsg : List OccAssign := [⟨0, 0, some 0⟩, ⟨4, 0, some 0⟩, ⟨0, 1, some 1⟩]

/-- A 90-minute Lecture kind with no declared `sessions_per_week`. -/
def k2 : Kind := { type := "Lecture", length := some 90 }

/-- A course whose only kind is a Lecture with no declared
`sessions_per_week`. -/
def c2 : Course := { course_id := "C1", year := 1, kinds := [k2] }

/-- The single eligible group for `c2`. -/
def g2 : Group := { group_id := "G1", year := 1, students_count := 20 }

/-- The single section of `g2`. -/
def s2 : Section := ⟨"S1", "G1", 20⟩

/-- A kind declaring a length longer than a full day (450 > 4 × 90). -/
def k3 : Kind := { type := "Lecture", length := some 450 }

/-- A graduation project whose kind declares a length longer than a full
day. -/
def c3 : Course :=
  { course_id := "GP", year := 4, major := some "CSC",
    kinds := [k3], is_project := true }

/-- The eligible group for `c3`. -/
def g3 : Group :=
  { group_id := "G1", year := 4, specialization := some "CSC", students_count := 80 }

/-- A Lecture kind with `ignore_capacity` set. -/
def k7 : Kind := { type := "Lecture", length := some 90, ignore_capacity := true }

/-- Course carrying `k7`. -/
def c7 : Course := { course_id := "C1", year := 1, kinds := [k7] }

/-- A group of 100 students (larger than the classroom below). -/
def g7 : Group := { group_id := "G1", year := 1, students_count := 100 }

/-- A big theater and a small classroom. -/
def rooms7 : List Room := [⟨"T1", "theater", 200, "B"⟩, ⟨"R2", "classroom", 50, "B"⟩]

/-- Data with no rooms and no instructors: every domain of `exLec` is
empty. -/
def data5 : Data := { instances := [exLec] }

/-- The empty backtracking state (`timetable = {}`, empty busy sets). -/
def emptySt : Scheduler.BTState := ⟨fun _ => none, ∅, ∅, fun _ => ∅⟩

/-- A concrete 90-minute assignment for section `S1`. -/
def wA : Scheduler.Assignment :=
  { course_id := "C1", session_type := "Lecture", day := 1, period := 2,
    sections := ["S1"], duration := 2, instructor_id := "P1", room_id := "R1" }

/-! Helper lemmas shared by the claim theorems. -/

/-- Folding point updates with a constant value evaluates to that value on
the key list and is the identity elsewhere. -/
theorem foldl_update_apply {α : Type} [DecidableEq α] {β : Type}
    (L : List (α)) (v : β) (m0 : α → β) (x : α) :
    (L.foldl (fun m k => Function.update m k v) m0) x = if x ∈ L then v else m0 x := by
  induction L generalizing m0 with
  | nil => simp
  | cons a L ih =>
    simp only [List.foldl_cons, ih, Function.update_apply, List.mem_cons]
    by_cases hL : x ∈ L <;> by_cases ha : x = a <;> simp [hL, ha]

/-- Membership after folding `insert` over a list. -/
theorem mem_foldl_insert {α : Type} [DecidableEq α]
    (L : List α) (s : Finset α) (x : α) :
    x ∈ L.foldl (fun t k => insert k t) s ↔ x ∈ L ∨ x ∈ s := by
  induction L generalizing s with
  | nil => simp
  | cons a L ih =>
    simp only [List.foldl_cons, ih, Finset.mem_insert, List.mem_cons]
    tauto

/-- Membership after folding `erase` over a list. -/
theorem mem_foldl_erase {α : Type} [DecidableEq α]
    (L : List α) (s : Finset α) (x : α) :
    x ∈ L.foldl (fun t k => t.erase k) s ↔ x ∈ s ∧ x ∉ L := by
  induction L generalizing s with
  | nil => simp
  | cons a L ih =>
    simp only [List.foldl_cons, ih, Finset.mem_erase, List.mem_cons]
    tauto

/-- The timetable cells an assignment covers. -/
theorem mem_tKeys (a : Scheduler.Assignment) (x : String × Nat × Nat) :
    x ∈ Scheduler.tKeys a ↔
      ∃ sid ∈ a.sections, ∃ k < a.duration, x = (sid, a.day, a.period + k) := by
  simp [Scheduler.tKeys, List.mem_flatMap, List.mem_map, List.mem_range]
  tauto

/-- The instructor-busy cells an assignment covers. -/
theorem mem_iKeys (a : Scheduler.Assignment) (x : String × Nat × Nat) :
    x ∈ Scheduler.iKeys a ↔
      ∃ k < a.duration, x = (a.instructor_id, a.day, a.period + k) := by
  simp [Scheduler.iKeys, List.mem_map, List.mem_range]
  tauto

/-- The room-busy cells an assignment covers. -/
theorem mem_rKeys (a : Scheduler.Assignment) (x : String × Nat × Nat) :
    x ∈ Scheduler.rKeys a ↔
      ∃ k < a.duration, x = (a.room_id, a.day, a.period + k) := by
  simp [Scheduler.rKeys, List.mem_map, List.mem_range]
  tauto

/-- A valid assignment's section cells are free in the current timetable. -/
theorem valid_timetable_free {st : Scheduler.BTState} {secs : List String}
    {day period dur : Nat} {instr room : String}
    (h : Scheduler._is_valid_assignment st secs day period dur instr room = true) :
    ∀ sid ∈ secs, ∀ k < dur, st.timetable (sid, day, period + k) = none := by
  intro sid hs k hk
  simp only [Scheduler._is_valid_assignment, Bool.and_eq_true] at h
  obtain ⟨⟨⟨⟨_, _⟩, h3⟩, _⟩, _⟩ := h
  rw [Bool.not_eq_true', List.any_eq_false] at h3
  have h3' := h3 sid hs
  have h3'' := Bool.eq_false_iff.mpr h3'
  rw [List.any_eq_false] at h3''
  have hfree := h3'' k (List.mem_range.mpr hk)
  rcases hO : st.timetable (sid, day, period + k) with _ | v
  · rfl
  · exact absurd (by rw [hO]; rfl) hfree

/-- A valid assignment's instructor cells are free. -/
theorem valid_instr_free {st : Scheduler.BTState} {secs : List String}
    {day period dur : Nat} {instr room : String}
    (h : Scheduler._is_valid_assignment st secs day period dur instr room = true) :
    ∀ k < dur, (instr, day, period + k) ∉ st.instructor_busy := by
  intro k hk
  simp only [Scheduler._is_valid_assignment, Bool.and_eq_true] at h
  obtain ⟨⟨_, h4⟩, _⟩ := h
  rw [Bool.not_eq_true', List.any_eq_false] at h4
  have hfree := h4 k (List.mem_range.mpr hk)
  simpa using hfree

/-- A valid assignment's room cells are free (when a real room is used). -/
theorem valid_room_free {st : Scheduler.BTState} {secs : List String}
    {day period dur : Nat} {instr room : String}
    (h : Scheduler._is_valid_assignment st secs day period dur instr room = true)
    (hr : room ≠ "N/A") :
    ∀ k < dur, (room, day, period + k) ∉ st.room_busy := by
  intro k hk
  simp only [Scheduler._is_valid_assignment, Bool.and_eq_true] at h
  obtain ⟨_, h5⟩ := h
  rw [Bool.not_eq_true', Bool.and_eq_false_iff] at h5
  rcases h5 with h5 | h5
  · exact absurd (by simpa using h5) hr
  · rw [List.any_eq_false] at h5
    have hfree := h5 k (List.mem_range.mpr hk)
    simpa using hfree

/-- C9: in the backtracking solver, for every state and every assignment
accepted by `_is_valid_assignment`, placing and then removing that
assignment restores `timetable`, `instructor_busy` and `room_busy`
exactly (the backtrack undo is an exact inverse of the placement). -/
theorem C9_place_remove_inverse (st : Scheduler.BTState) (a : Scheduler.Assignment)
    (h : Scheduler._is_valid_assignment st a.sections a.day a.period a.duration
      a.instructor_id a.room_id = true) :
    (Scheduler._remove_assignment (Scheduler._place_assignment st a) a).timetable
        = st.timetable
    ∧ (Scheduler._remove_assignment (Scheduler._place_assignment st a) a).instructor_busy
        = st.instructor_busy
    ∧ (Scheduler._remove_assignment (Scheduler._place_assignment st a) a).room_busy
        = st.room_busy := by
  refine ⟨funext fun x => ?_, ?_, ?_⟩
  · show (Scheduler.tKeys a).foldl (fun m key => Function.update m key none)
      ((Scheduler.tKeys a).foldl (fun m key => Function.update m key (some a))
        st.timetable) x = st.timetable x
    rw [foldl_update_apply, foldl_update_apply]
    by_cases hx : x ∈ Scheduler.tKeys a
    · simp only [hx, if_true]
      obtain ⟨sid, hs, k, hk, rfl⟩ := (mem_tKeys a x).mp hx
      exact (valid_timetable_free h sid hs k hk).symm
    · simp [hx]
  · show (Scheduler.iKeys a).foldl (fun s key => s.erase key)
      ((Scheduler.iKeys a).foldl (fun s key => insert key s)
        st.instructor_busy) = st.instructor_busy
    ext x
    rw [mem_foldl_erase, mem_foldl_insert]
    constructor
    · rintro ⟨h1 | h1, h2⟩
      · exact absurd h1 h2
      · exact h1
    · intro hx
      refine ⟨Or.inr hx, fun hk => ?_⟩
      obtain ⟨k, hlt, rfl⟩ := (mem_iKeys a x).mp hk
      exact valid_instr_free h k hlt hx
  · by_cases hr : a.room_id = "N/A"
    · show (if a.room_id ≠ "N/A" then _ else (Scheduler._place_assignment st a).room_busy)
        = st.room_busy
      simp only [hr, ne_eq, not_true_eq_false, if_false]
      show (if a.room_id ≠ "N/A" then _ else st.room_busy) = st.room_busy
      simp [hr]
    · show (if a.room_id ≠ "N/A" then
          (Scheduler.rKeys a).foldl (fun s key => s.erase key)
            (Scheduler._place_assignment st a).room_busy
        else (Scheduler._place_assignment st a).room_busy) = st.room_busy
      simp only [ne_eq, hr, not_false_eq_true, if_true]
      show (Scheduler.rKeys a).foldl (fun s key => s.erase key)
        (if a.room_id ≠ "N/A" then
          (Scheduler.rKeys a).foldl (fun s key => insert key s) st.room_busy
        else st.room_busy) = st.room_busy
      simp only [ne_eq, hr, not_false_eq_true, if_true]
      ext x
      rw [mem_foldl_erase, mem_foldl_insert]
      constructor
      · rintro ⟨h1 | h1, h2⟩
        · exact absurd h1 h2
        · exact h1
      · intro hx
        refine ⟨Or.inr hx, fun hk => ?_⟩
        obtain ⟨k, hlt, rfl⟩ := (mem_rKeys a x).mp hk
        exact valid_room_free h hr k hlt hx

/-- The pre-check's room test is at least as strict as the CP domain
filter: any room the pre-check accepts is a CP room candidate. -/
theorem quickRoomOk_imp_buildRoomOk {inst : Instance} {r : Room}
    (h : quickRoomOk inst r = true) : buildRoomOk inst r = true := by
  simp only [quickRoomOk, Bool.and_eq_true] at h
  obtain ⟨⟨h1, h2⟩, h3⟩ := h
  simp only [buildRoomOk, Bool.and_eq_true]
  refine ⟨⟨h1, ?_⟩, h3⟩
  rw [Bool.or_eq_true] at h2
  rcases h2 with h2 | h2
  · rw [Bool.or_eq_true]
    left
    rw [Bool.not_eq_true'] at h2 ⊢
    rw [Bool.and_eq_false_iff]
    left
    exact h2
  · rw [Bool.or_eq_true]
    right
    exact h2

/-- An instance's error entries are part of the full pre-check output. -/
theorem mem_quick_of_mem_perInstance {data : Data} {params : Params}
    {inst : Instance} {e : ErrEntry} (hm : inst ∈ data.instances)
    (he : e ∈ perInstanceErrors data.rooms data.instructors
      params.base_slot_minutes inst) :
    e ∈ quick_feasibility_checks data params := by
  rw [quick_feasibility_checks, List.mem_flatten]
  exact ⟨_, List.mem_map_of_mem _ hm, he⟩

/-- When the pre-check reports no errors, each instance contributed none. -/
theorem perInstanceErrors_eq_nil {data : Data} {params : Params}
    (h : quick_feasibility_checks data params = []) {inst : Instance}
    (hm : inst ∈ data.instances) :
    perInstanceErrors data.rooms data.instructors params.base_slot_minutes inst = [] := by
  rw [quick_feasibility_checks, List.flatten_eq_nil_iff] at h
  exact h _ (List.mem_map_of_mem _ hm)

/-- An instance that contributed no error entry has a truthy lab type when
it is a Lab, and the pre-check found it a compatible room. -/
theorem no_errors_room_found {rooms : List Room} {instructors : List Instructor}
    {base : Nat} {inst : Instance}
    (h : perInstanceErrors rooms instructors base inst = []) :
    ¬(inst.type = "Lab" ∧ labTypeFalsy inst.lab_type = true)
    ∧ rooms.any (quickRoomOk inst) = true := by
  rw [perInstanceErrors, List.append_eq_nil] at h
  have h2 := h.2
  by_cases hP : inst.type = "Lab" ∧ labTypeFalsy inst.lab_type = true
  · rw [if_pos hP] at h2
    exact absurd h2 (by simp)
  · refine ⟨hP, ?_⟩
    rw [if_neg hP, List.append_eq_nil] at h2
    by_cases hany : rooms.any (quickRoomOk inst) = true
    · exact hany
    · rw [if_neg hany] at h2
      exact absurd h2.1 (by simp)

/-- If some listed room passes the pre-check's room test, the CP candidate
list is non-empty. -/
theorem room_candidates_ne_nil_of_any {rooms : List Room} {inst : Instance}
    (hany : rooms.any (quickRoomOk inst) = true) :
    room_candidates rooms inst ≠ [] := by
  rw [List.any_eq_true] at hany
  obtain ⟨r, hr, hok⟩ := hany
  obtain ⟨n, hn, rfl⟩ := List.mem_iff_getElem.mp hr
  apply List.ne_nil_of_mem (a := n)
  rw [room_candidates, List.mem_filter, List.mem_range]
  refine ⟨hn, ?_⟩
  rw [List.getD_eq_getElem?_getD, List.getElem?_eq_getElem hn]
  exact quickRoomOk_imp_buildRoomOk hok

/-- C10: when `quick_feasibility_checks` reports no errors, every listed
instance has a non-empty CP room-candidate list, so the fallback in
`build_and_solve` that widens an empty room domain to all rooms is
unreachable (the room-variable domain equals the candidate list). -/
theorem C10_no_fallback (data : Data) (params : Params) (inst : Instance)
    (h : quick_feasibility_checks data params = []) (hm : inst ∈ data.instances) :
    room_candidates data.rooms inst ≠ []
    ∧ roomDomain data.rooms inst = room_candidates data.rooms inst := by
  have hone := no_errors_room_found (perInstanceErrors_eq_nil h hm)
  have hne := room_candidates_ne_nil_of_any hone.2
  exact ⟨hne, by rw [roomDomain, if_neg hne]⟩

/-- Witness for C10 at the concrete feasible catalog. -/
theorem C10_no_fallback_witness :
    room_candidates exData.rooms exLec ≠ []
    ∧ roomDomain exData.rooms exLec = room_candidates exData.rooms exLec :=
  C10_no_fallback exData exParams exLec (by decide) (by decide)

/-- If some listed instructor passes the qualification test, the CP
instructor candidate list is non-empty. -/
theorem instr_candidates_ne_nil_of_any {instructors : List Instructor}
    {inst : Instance} (hany : instructors.any (instrOk inst) = true) :
    instr_candidates instructors inst ≠ [] := by
  rw [List.any_eq_true] at hany
  obtain ⟨x, hx, hok⟩ := hany
  obtain ⟨n, hn, rfl⟩ := List.mem_iff_getElem.mp hx
  apply List.ne_nil_of_mem (a := n)
  rw [instr_candidates, List.mem_filter, List.mem_range]
  refine ⟨hn, ?_⟩
  rw [List.getD_eq_getElem?_getD, List.getElem?_eq_getElem hn]
  exact hok

/-- C6: every room index in an occurrence's CP room domain (reached only
after a clean pre-check) points at a room whose type is admissible for the
session type — Lecture: classroom, theater or hall; Tut: classroom,
computer lab or hall; Lab: exactly the declared lab type; Project: hall,
theater or classroom — and every room `_get_suitable_rooms` returns in the
backtracker satisfies the same restrictions. -/
theorem C6_room_type_admissible :
    (∀ (data : Data) (params : Params) (inst : Instance) (i : Nat),
      quick_feasibility_checks data params = [] → inst ∈ data.instances →
      i ∈ roomDomain data.rooms inst →
      (inst.type = "Lecture" →
        (data.rooms.getD i dRoom).type ∈ (["classroom", "theater", "hall"] : List String))
      ∧ (inst.type = "Tut" →
        (data.rooms.getD i dRoom).type ∈
          (["classroom", "computer lab", "hall"] : List String))
      ∧ (inst.type = "Lab" → inst.lab_type = some (data.rooms.getD i dRoom).type)
      ∧ (inst.type = "Project" →
        (data.rooms.getD i dRoom).type ∈ (["hall", "theater", "classroom"] : List String)))
    ∧ (∀ (rooms : List Room) (session_type : String) (students : Nat)
        (lab_type : Option String) (icap : Bool) (r : Room),
        r ∈ rooms.filter (Scheduler.suitableRoomOk session_type students lab_type icap) →
        (session_type = "Lecture" →
          r.type ∈ (["classroom", "theater", "hall"] : List String))
        ∧ (session_type = "Tut" →
          r.type ∈ (["classroom", "computer lab", "hall"] : List String))
        ∧ (session_type = "Lab" → lab_type = some r.type)) := by
  constructor
  · intro data params inst i h hm hd
    have hnil := perInstanceErrors_eq_nil h hm
    have hfound := no_errors_room_found hnil
    have hne := room_candidates_ne_nil_of_any hfound.2
    rw [roomDomain] at hd
    rw [if_neg hne] at hd
    rw [room_candidates, List.mem_filter, List.mem_range] at hd
    have hok := hd.2
    simp only [buildRoomOk, Bool.and_eq_true] at hok
    obtain ⟨⟨h1, h2⟩, _⟩ := hok
    refine ⟨fun ht => ?_, fun ht => ?_, fun ht => ?_, fun ht => ?_⟩
    · rw [ht] at h1
      simpa [valid_room_types_for_session] using h1
    · rw [ht] at h1
      simpa [valid_room_types_for_session] using h1
    · have htr : truthyStr inst.lab_type = true := by
        rcases Bool.eq_false_or_eq_true (truthyStr inst.lab_type) with htv | hf
        · exact htv
        · exact absurd ⟨ht, by simp [labTypeFalsy, hf]⟩ hfound.1
      rw [Bool.or_eq_true] at h2
      rcases h2 with h2 | h2
      · rw [Bool.not_eq_true', Bool.and_eq_false_iff] at h2
        rcases h2 with h2 | h2
        · simp [ht] at h2
        · rw [htr] at h2
          cases h2
      · simpa using h2
    · rw [ht] at h1
      simpa [valid_room_types_for_session] using h1
  · intro rooms session_type students lab_type icap r hr
    rw [List.mem_filter] at hr
    have hok := hr.2
    refine ⟨fun ht => ?_, fun ht => ?_, fun ht => ?_⟩
    · subst ht
      simp only [Scheduler.suitableRoomOk, Bool.and_eq_true] at hok
      have h2 := hok.2
      by_cases hic : icap = true
      · rw [hic] at h2
        simp at h2
        simp [h2]
      · rw [Bool.eq_false_iff.mpr hic] at h2
        simp at h2
        rcases h2 with h2 | h2 <;> simp [h2]
    · subst ht
      simp only [Scheduler.suitableRoomOk, Bool.and_eq_true] at hok
      have h2 := hok.2
      simp at h2
      simp [h2]
    · subst ht
      simp only [Scheduler.suitableRoomOk, Bool.and_eq_true] at hok
      have h2 := hok.2
      simp at h2
      exact h2.2

/-- Witness for C6 at a concrete feasible catalog (the CP domain of the
lecture, and the theater `_get_suitable_rooms` returns for a
capacity-ignoring lecture). -/
theorem C6_room_type_admissible_witness :
    (exLec.type = "Lecture" →
      (exData.rooms.getD 0 dRoom).type ∈ (["classroom", "theater", "hall"] : List String))
    ∧ ("Lecture" = "Lecture" →
      (⟨"T1", "theater", 200, "B"⟩ : Room).type ∈
        (["classroom", "theater", "hall"] : List String)) :=
  ⟨(C6_room_type_admissible.1 exData exParams exLec 0 (by decide) (by decide)
      (by decide)).1,
   (C6_room_type_admissible.2 rooms7 "Lecture" 100 none true ⟨"T1", "theater", 200, "B"⟩
      (by decide)).1⟩

/-- C7 counterexample: the generated CP instance of a kind that sets
`ignore_capacity` still excludes the undersized (type-admissible)
classroom from its room domain — `generate_instances` drops the flag, so
the CP pipeline always applies the capacity restriction. -/
theorem C7_counterexample :
    k7.ignore_capacity = true
    ∧ generate_instances [c7] [g7] [] = [mkLectureInstance c7 k7 g7]
    ∧ (mkLectureInstance c7 k7 g7).expected_students = 100
    ∧ (rooms7.getD 1 dRoom).type ∈ valid_room_types_for_session "Lecture"
    ∧ (rooms7.getD 1 dRoom).capacity = 50
    ∧ (1 : Nat) ∉ roomDomain rooms7 (mkLectureInstance c7 k7 g7) := by
  decide

/-- C7 amended: in the CP pipeline every room of an occurrence's post-
pre-check domain has capacity at least the (non-zero) expected student
count regardless of any `ignore_capacity` flag on the kind (the flag is
not propagated into instances); the backtracking scheduler restricts
capacity when the flag is off and ignores the student count entirely when
it is on. -/
theorem C7_amended :
    (∀ (data : Data) (params : Params) (inst : Instance) (i : Nat),
      quick_feasibility_checks data params = [] → inst ∈ data.instances →
      i ∈ roomDomain data.rooms inst → inst.expected_students ≠ 0 →
      inst.expected_students ≤ (data.rooms.getD i dRoom).capacity)
    ∧ (∀ (session_type : String) (students : Nat) (lab_type : Option String) (r : Room),
        Scheduler.suitableRoomOk session_type students lab_type false r = true →
        students ≤ r.capacity)
    ∧ (∀ (session_type : String) (students students' : Nat) (lab_type : Option String)
        (r : Room),
        Scheduler.suitableRoomOk session_type students lab_type true r
          = Scheduler.suitableRoomOk session_type students' lab_type true r) := by
  refine ⟨?_, ?_, ?_⟩
  · intro data params inst i h hm hd hexp
    have hnil := perInstanceErrors_eq_nil h hm
    have hfound := no_errors_room_found hnil
    have hne := room_candidates_ne_nil_of_any hfound.2
    rw [roomDomain] at hd
    rw [if_neg hne] at hd
    rw [room_candidates, List.mem_filter, List.mem_range] at hd
    have hok := hd.2
    simp only [buildRoomOk, Bool.and_eq_true] at hok
    have h3 := hok.2
    rw [Bool.not_eq_true', Bool.and_eq_false_iff] at h3
    rcases h3 with h3 | h3
    · exact absurd hexp (by simpa using h3)
    · have := of_decide_eq_false h3
      omega
  · intro session_type students lab_type r h
    simp only [Scheduler.suitableRoomOk, Bool.and_eq_true] at h
    simpa using h.1
  · intro session_type students students' lab_type r
    simp [Scheduler.suitableRoomOk]

/-- Witness for C7's amended claim at concrete rooms. -/
theorem C7_amended_witness :
    exLec.expected_students ≤ (exData.rooms.getD 0 dRoom).capacity
    ∧ (20 : Nat) ≤ (⟨"R1", "classroom", 100, "B"⟩ : Room).capacity
    ∧ Scheduler.suitableRoomOk "Lecture" 20 none true dRoom
        = Scheduler.suitableRoomOk "Lecture" 100 none true dRoom :=
  ⟨C7_amended.1 exData exParams exLec 0 (by decide) (by decide) (by decide) (by decide),
   C7_amended.2.1 "Lecture" 20 none ⟨"R1", "classroom", 100, "B"⟩ (by decide),
   C7_amended.2.2 "Lecture" 20 100 none dRoom⟩

/-- C5: an occurrence whose CP room-candidate list is empty, and a
non-project occurrence whose instructor-candidate list is empty, are each
named by an entry of `quick_feasibility_checks`; a non-empty error list
makes `build_and_solve` return the `INPUT_ERROR` result carrying exactly
that list (the solver is not entered); and the solver is entered only when
the pre-check reports no errors. -/
theorem C5_precheck_gate :
    (∀ (data : Data) (params : Params) (inst : Instance), inst ∈ data.instances →
      room_candidates data.rooms inst = [] →
      ∃ e ∈ quick_feasibility_checks data params, e.instId = inst.instance_id)
    ∧ (∀ (data : Data) (params : Params) (inst : Instance), inst ∈ data.instances →
      inst.type ≠ "Project" → instr_candidates data.instructors inst = [] →
      ∃ e ∈ quick_feasibility_checks data params, e.instId = inst.instance_id)
    ∧ (∀ (data : Data) (params : Params), quick_feasibility_checks data params ≠ [] →
      build_and_solve data params = .inputError (quick_feasibility_checks data params))
    ∧ (∀ (data : Data) (params : Params) (occs : List (Instance × Nat)),
      build_and_solve data params = .search occs →
      quick_feasibility_checks data params = []) := by
  refine ⟨?_, ?_, ?_, ?_⟩
  · intro data params inst hm hempty
    by_cases hP : inst.type = "Lab" ∧ labTypeFalsy inst.lab_type = true
    · refine ⟨⟨inst.instance_id, .labTypeMissing⟩, mem_quick_of_mem_perInstance hm ?_, rfl⟩
      rw [perInstanceErrors]
      apply List.mem_append_right
      rw [if_pos hP]
      simp
    · have hany : data.rooms.any (quickRoomOk inst) = false := by
        by_cases hq : data.rooms.any (quickRoomOk inst) = true
        · exact absurd hempty (room_candidates_ne_nil_of_any hq)
        · exact Bool.eq_false_iff.mpr hq
      refine ⟨⟨inst.instance_id, .noRoom⟩, mem_quick_of_mem_perInstance hm ?_, rfl⟩
      rw [perInstanceErrors]
      apply List.mem_append_right
      rw [if_neg hP]
      apply List.mem_append_left
      rw [if_neg (by rw [hany]; exact Bool.false_ne_true)]
      simp
  · intro data params inst hm hproj hempty
    by_cases hP : inst.type = "Lab" ∧ labTypeFalsy inst.lab_type = true
    · refine ⟨⟨inst.instance_id, .labTypeMissing⟩, mem_quick_of_mem_perInstance hm ?_, rfl⟩
      rw [perInstanceErrors]
      apply List.mem_append_right
      rw [if_pos hP]
      simp
    · have hany : data.instructors.any (instrOk inst) = false := by
        by_cases hq : data.instructors.any (instrOk inst) = true
        · exact absurd hempty (instr_candidates_ne_nil_of_any hq)
        · exact Bool.eq_false_iff.mpr hq
      refine ⟨⟨inst.instance_id, .noInstructor⟩, mem_quick_of_mem_perInstance hm ?_, rfl⟩
      rw [perInstanceErrors]
      apply List.mem_append_right
      rw [if_neg hP]
      apply List.mem_append_right
      rw [if_pos hproj]
      rw [if_neg (by rw [hany]; exact Bool.false_ne_true)]
      simp
  · intro data params h
    rw [build_and_solve, if_neg h]
  · intro data params occs hs
    by_cases h : quick_feasibility_checks data params = []
    · exact h
    · rw [build_and_solve, if_neg h] at hs
      cases hs

/-- Witness for C5 on a catalog with no rooms and no instructors: both
domains of the lecture are empty, the pre-check names it, and the call
returns `INPUT_ERROR`; on the feasible catalog the solver is entered. -/
theorem C5_precheck_gate_witness :
    (∃ e ∈ quick_feasibility_checks data5 exParams, e.instId = exLec.instance_id)
    ∧ build_and_solve data5 exParams
        = .inputError (quick_feasibility_checks data5 exParams)
    ∧ quick_feasibility_checks exData exParams = [] :=
  ⟨C5_precheck_gate.1 data5 exParams exLec (by decide) (by decide),
   C5_precheck_gate.2.2.1 data5 exParams (by decide),
   C5_precheck_gate.2.2.2 exData exParams (occurrencesOf exData.instances) rfl⟩

/-- C8: every start the CP model can assign to an occurrence of length `ℓ`
satisfies `⌊s/S⌋ = ⌊(s+ℓ−1)/S⌋`, so the whole interval `[s, s+ℓ)` lies in
one day; and every assignment the backtracker accepts fits inside the day
(`period + duration ≤ PERIODS_PER_DAY`). -/
theorem C8_day_containment :
    (∀ total spd ℓ s, 1 ≤ ℓ → s ∈ validStarts total spd ℓ →
      s / spd = (s + ℓ - 1) / spd ∧ ∀ t, s ≤ t → t < s + ℓ → t / spd = s / spd)
    ∧ (∀ (st : Scheduler.BTState) (secs : List String) (day period dur : Nat)
        (instr room : String),
        Scheduler._is_valid_assignment st secs day period dur instr room = true →
        period + dur ≤ Scheduler.PERIODS_PER_DAY) := by
  constructor
  · intro total spd ℓ s hℓ hs
    rw [validStarts, List.mem_filter] at hs
    have heq : s / spd = (s + ℓ - 1) / spd := by simpa using hs.2
    refine ⟨heq, fun t ht1 ht2 => ?_⟩
    have h1 : t ≤ s + ℓ - 1 := by omega
    have h2 : t / spd ≤ (s + ℓ - 1) / spd := Nat.div_le_div_right h1
    have h3 : s / spd ≤ t / spd := Nat.div_le_div_right ht1
    have h4 : t / spd ≤ s / spd := by rw [heq]; exact h2
    exact le_antisymm h4 h3
  · intro st secs day period dur instr room h
    simp only [Scheduler._is_valid_assignment, Bool.and_eq_true] at h
    obtain ⟨⟨⟨⟨_, h2⟩, _⟩, _⟩, _⟩ := h
    simpa using h2

/-- Witness for C8: the CP start 9 (an in-day start for a 90-minute
session) and a concrete accepted backtracker assignment. -/
theorem C8_day_containment_witness :
    ((9 : Nat) / 8 = (9 + 2 - 1) / 8 ∧ ∀ t, 9 ≤ t → t < 9 + 2 → t / 8 = 9 / 8)
    ∧ 2 + 2 ≤ Scheduler.PERIODS_PER_DAY :=
  ⟨C8_day_containment.1 40 8 2 9 (by decide) (by decide),
   C8_day_containment.2 emptySt ["S1"] 0 2 2 "P1" "R1" (by decide)⟩

/-- C4 counterexample: the CP model of `build_and_solve` has no alignment
constraint at all — a full satisfying assignment places a 2-sub-slot
lecture at the odd start 1 — and the backtracker's alignment check ignores
durations other than exactly 2: it accepts a 4-sub-slot session at odd
period 1. -/
theorem C4_counterexample :
    cpSat exData exParams [(exLec, 0)] [⟨1, 0, some 0⟩] = true
    ∧ neededOf exLec exParams.base_slot_minutes = 2
    ∧ Scheduler._is_valid_assignment emptySt ["S1"] 0 1 4 "T1" "R1" = true
    ∧ (1 : Nat) % 2 ≠ 0 := by
  decide

/-- C4 amended: the backtracking solver aligns exactly the sessions of
duration 2 sub-slots to even periods (the CP model imposes no alignment,
and the backtracker does not restrict other durations). -/
theorem C4_amended (st : Scheduler.BTState) (secs : List String)
    (day period dur : Nat) (instr room : String)
    (h : Scheduler._is_valid_assignment st secs day period dur instr room = true)
    (hdur : dur = 2) : period % 2 = 0 := by
  simp only [Scheduler._is_valid_assignment, Bool.and_eq_true] at h
  obtain ⟨⟨⟨⟨h1, _⟩, _⟩, _⟩, _⟩ := h
  rw [Bool.not_eq_true', Bool.and_eq_false_iff] at h1
  rcases h1 with h1 | h1
  · exact absurd hdur (by simpa using h1)
  · have := of_decide_eq_false h1
    omega

/-- Witness for C4's amended claim at a concrete accepted assignment. -/
theorem C4_amended_witness : (2 : Nat) % 2 = 0 :=
  C4_amended emptySt ["S1"] 0 2 2 "P1" "R1" (by decide) (by decide)

/-- C1 counterexample: a full satisfying assignment of the CP model in
which the tutorial of section `S1` overlaps the lecture of its own group
`G1` — the cohorts share `S1`, yet `share_students` in `build_and_solve`
compares only equal group ids or equal section ids, so no disjointness is
enforced and the CP solver may return this schedule. -/
theorem C1_counterexample :
    cpSat exData exParams exOccs exAsg = true
    ∧ cohortsShare exData.sections (exOccs.getD 0 (dInst, 0)).1
        (exOccs.getD 2 (dInst, 0)).1 = true
    ∧ intervalsDisjoint (exAsg.getD 0 dOcc).start
        (neededOf (exOccs.getD 0 (dInst, 0)).1 exParams.base_slot_minutes)
        (exAsg.getD 2 dOcc).start
        (neededOf (exOccs.getD 2 (dInst, 0)).1 exParams.base_slot_minutes) = false := by
  decide

/-- C1 amended: student exclusion holds exactly for the code's
`share_students` test — in any satisfying CP assignment, two occurrences
that declare the same (truthy) group id or the same section id get
disjoint intervals; and the backtracking solver rejects any assignment
that reuses an occupied cell of a shared section, so there it holds for
any cohort intersection. Cohorts that merely intersect (a group's lecture
versus one of its sections' tutorials) are not protected in the CP model. -/
theorem C1_amended :
    (∀ (data : Data) (params : Params) (occs : List (Instance × Nat))
      (asg : List OccAssign) (i j : Nat), i < j → j < occs.length →
      cpSat data params occs asg = true →
      shareStudentsCode (occs.getD i (dInst, 0)).1 (occs.getD j (dInst, 0)).1 = true →
      intervalsDisjoint (asg.getD i dOcc).start
        (neededOf (occs.getD i (dInst, 0)).1 params.base_slot_minutes)
        (asg.getD j dOcc).start
        (neededOf (occs.getD j (dInst, 0)).1 params.base_slot_minutes) = true)
    ∧ (∀ (st : Scheduler.BTState) (a : Scheduler.Assignment) (secs : List String)
        (period dur : Nat) (instr room : String) (sid : String) (p : Nat),
        sid ∈ a.sections → sid ∈ secs →
        a.period ≤ p → p < a.period + a.duration → period ≤ p → p < period + dur →
        Scheduler._is_valid_assignment (Scheduler._place_assignment st a) secs
          a.day period dur instr room = false) := by
  constructor
  · intro data params occs asg i j hij hj hsat hshare
    simp only [cpSat, Bool.and_eq_true, List.all_eq_true] at hsat
    have hp := hsat.2 j (List.mem_range.mpr hj) i (List.mem_range.mpr hij)
    simp only [pairOK, Bool.and_eq_true] at hp
    obtain ⟨⟨⟨_, h2⟩, _⟩, _⟩ := hp
    rw [hshare] at h2
    simpa using h2
  · intro st a secs period dur instr room sid p hsa hsb hp1 hp2 hp3 hp4
    have hkey : (sid, a.day, p) ∈ Scheduler.tKeys a := by
      rw [mem_tKeys]
      refine ⟨sid, hsa, p - a.period, by omega, ?_⟩
      have hpp : a.period + (p - a.period) = p := by omega
      rw [hpp]
    have htt : (Scheduler._place_assignment st a).timetable (sid, a.day, p) = some a := by
      show (Scheduler.tKeys a).foldl (fun m key => Function.update m key (some a))
        st.timetable (sid, a.day, p) = some a
      rw [foldl_update_apply]
      simp [hkey]
    have hany : (secs.any (fun s' => (List.range dur).any fun k =>
        ((Scheduler._place_assignment st a).timetable (s', a.day, period + k)).isSome))
        = true := by
      rw [List.any_eq_true]
      refine ⟨sid, hsb, ?_⟩
      rw [List.any_eq_true]
      refine ⟨p - period, List.mem_range.mpr (by omega), ?_⟩
      have hpp : period + (p - period) = p := by omega
      rw [hpp, htt]
      rfl
    simp [Scheduler._is_valid_assignment, hany]

/-- Witness for C1's amended claim: the two lecture repetitions of `G1`
come out disjoint in the satisfying assignment `exAsg`, and after placing
`wA` the backtracker rejects an overlapping assignment of the same
section. -/
theorem C1_amended_witness :
    intervalsDisjoint (exAsg.getD 0 dOcc).start
      (neededOf (exOccs.getD 0 (dInst, 0)).1 exParams.base_slot_minutes)
      (exAsg.getD 1 dOcc).start
      (neededOf (exOccs.getD 1 (dInst, 0)).1 exParams.base_slot_minutes) = true
    ∧ Scheduler._is_valid_assignment (Scheduler._place_assignment emptySt wA) ["S1"]
        wA.day 2 2 "T1" "R2" = false :=
  ⟨C1_amended.1 exData exParams exOccs exAsg 0 1 (by decide) (by decide) (by decide)
    (by decide),
   C1_amended.2 emptySt wA ["S1"] 2 2 "T1" "R2" "S1" 3 (by decide) (by decide)
    (by decide) (by decide) (by decide) (by decide)⟩

/-- Counting through `List.getD` over the index range is counting over the
list itself. -/
theorem countP_range_getD {α : Type} (l : List α) (d : α) (q : α → Bool) :
    (List.range l.length).countP (fun i => q (l.getD i d)) = l.countP q := by
  induction l with
  | nil => simp
  | cons a l ih =>
    rw [List.length_cons, List.range_succ_eq_map, List.countP_cons, List.countP_map]
    have hcomp : ((fun i => q ((a :: l).getD i d)) ∘ Nat.succ) = fun i => q (l.getD i d) := by
      funext i
      simp
    rw [hcomp, ih, List.countP_cons]
    simp [Nat.add_comm]

/-- Occurrence multiplicity of the CP expansion: an instance contributes
exactly `sessions_per_week` occurrences per listed copy. -/
theorem occurrencesOf_countP (instances : List Instance) (inst : Instance) :
    (occurrencesOf instances).countP (fun o => decide (o.1 = inst))
      = instances.count inst * inst.sessions_per_week := by
  induction instances with
  | nil => simp [occurrencesOf]
  | cons a l ih =>
    rw [occurrencesOf, List.flatMap_cons, List.countP_append, List.countP_map]
    rw [occurrencesOf] at ih
    rw [ih]
    by_cases ha : a = inst
    · subst ha
      rw [List.count_cons_self]
      have hconst : ((fun o : Instance × Nat => decide (o.1 = a)) ∘ fun k => (a, k))
          = fun _ => true := by
        funext k
        simp
      rw [hconst]
      simp [List.countP_true, Nat.add_mul, Nat.add_comm]
    · rw [List.count_cons_of_ne (fun h => ha h.symm)]
      have hconst : ((fun o : Instance × Nat => decide (o.1 = inst)) ∘ fun k => (a, k))
          = fun _ => false := by
        funext k
        simp [ha]
      rw [hconst]
      simp

/-- The CP schedule extraction preserves the identifying fields of each
occurrence: counting records by course, type, group and section ids is
counting occurrences. -/
theorem cpSchedule_countP (data : Data) (params : Params)
    (occs : List (Instance × Nat)) (asg : List OccAssign)
    (p : String → String → Option String → Option String → Bool) :
    (cpSchedule data params occs asg).countP
      (fun r => p r.course_id r.type r.group_id r.section_id)
      = occs.countP (fun o => p o.1.course_id o.1.type o.1.group_id o.1.section_id) := by
  rw [cpSchedule, List.countP_map]
  have hcomp : ((fun r : ScheduleRecord => p r.course_id r.type r.group_id r.section_id) ∘
      fun idx => mkRecord data.rooms data.instructors params
        (occs.getD idx (dInst, 0)).1 (occs.getD idx (dInst, 0)).2 (asg.getD idx dOcc))
      = fun idx => p (occs.getD idx (dInst, 0)).1.course_id
          (occs.getD idx (dInst, 0)).1.type (occs.getD idx (dInst, 0)).1.group_id
          (occs.getD idx (dInst, 0)).1.section_id := by
    funext idx
    simp [mkRecord]
  rw [hcomp]
  exact countP_range_getD occs (dInst, 0)
    (fun o => p o.1.course_id o.1.type o.1.group_id o.1.section_id)

/-- C2 counterexample: for a Lecture kind with no declared
`sessions_per_week`, the CP pipeline expands to 2 occurrences (the
default), but the backtracking expansion `_get_all_sessions_to_schedule`
produces a single session for the same course and group — it has no notion
of `sessions_per_week` — so the two strategies cannot both return exactly
the declared counts. -/
theorem C2_counterexample :
    c2.is_project = false
    ∧ k2.sessions_per_week = none
    ∧ (occurrencesOf (generate_instances [c2] [g2] [s2])).length = 2
    ∧ (Scheduler._get_all_sessions_to_schedule [c2] [g2] [s2]).length = 1
    ∧ (2 : Nat) ≠ 1 := by
  decide

/-- C2 amended: in the CP pipeline the claim holds — each Lecture kind of
a non-project course yields exactly one instance per eligible group with
`sessions_per_week` defaulting to 2, the expansion repeats each instance
`sessions_per_week` times, and the extracted schedule carries exactly the
occurrences (field-preserving counting). The backtracking expansion
instead emits exactly one session per eligible group, ignoring
`sessions_per_week`. -/
theorem C2_amended :
    (∀ (c : Course) (k : Kind) (groups : List Group) (sections : List Section),
      c.is_project = false → k.type = "Lecture" →
      instancesForKind c k (targetGroups c groups) (targetSections c groups sections)
        = (targetGroups c groups).map (mkLectureInstance c k))
    ∧ (∀ (c : Course) (k : Kind) (g : Group),
      (mkLectureInstance c k g).sessions_per_week = k.sessions_per_week.getD 2)
    ∧ (∀ (instances : List Instance) (inst : Instance),
      (occurrencesOf instances).countP (fun o => decide (o.1 = inst))
        = instances.count inst * inst.sessions_per_week)
    ∧ (∀ (data : Data) (params : Params) (occs : List (Instance × Nat))
        (asg : List OccAssign)
        (p : String → String → Option String → Option String → Bool),
      (cpSchedule data params occs asg).countP
        (fun r => p r.course_id r.type r.group_id r.section_id)
        = occs.countP (fun o => p o.1.course_id o.1.type o.1.group_id o.1.section_id))
    ∧ (∀ (c : Course) (k : Kind) (groups : List Group) (sections : List Section),
      c.kinds = [k] → c.is_project = false → c.full_year = false → k.type = "Lecture" →
      (Scheduler._get_all_sessions_to_schedule [c] groups sections).length
        = (groups.filter (fun g => decide (g.year = c.year) &&
            (decide (c.major = none) || decide (g.specialization = c.major)))).length) := by
  refine ⟨?_, ?_, occurrencesOf_countP, cpSchedule_countP, ?_⟩
  · intro c k groups sections hproj ht
    rw [instancesForKind, if_neg (by rw [hproj]; exact Bool.false_ne_true), if_pos ht]
  · intro c k g
    rfl
  · intro c k groups sections hkinds hproj hfy ht
    rw [Scheduler._get_all_sessions_to_schedule]
    simp only [List.flatMap_cons, List.flatMap_nil, List.append_nil, hkinds]
    rw [Scheduler._get_target_sections, if_neg (by rw [hproj]; exact Bool.false_ne_true),
      if_neg (by rw [hfy]; exact Bool.false_ne_true), if_pos ht]
    simp

/-- Witness for C2's amended claim on the concrete one-group catalog. -/
theorem C2_amended_witness :
    instancesForKind c2 k2 (targetGroups c2 [g2]) (targetSections c2 [g2] [s2])
      = (targetGroups c2 [g2]).map (mkLectureInstance c2 k2)
    ∧ (occurrencesOf [exLec]).countP (fun o => decide (o.1 = exLec))
        = [exLec].count exLec * exLec.sessions_per_week
    ∧ (Scheduler._get_all_sessions_to_schedule [c2] [g2] [s2]).length
        = ([g2].filter (fun g => decide (g.year = c2.year) &&
            (decide (c2.major = none) || decide (g.specialization = c2.major)))).length :=
  ⟨C2_amended.1 c2 k2 [g2] [s2] (by decide) (by decide),
   C2_amended.2.2.1 [exLec] exLec,
   C2_amended.2.2.2.2 c2 k2 [g2] [s2] (by decide) (by decide) (by decide) (by decide)⟩

/-- C3 counterexample: a project kind declaring 450 minutes keeps its 450
minutes (`klen if klen >= 360 else 360`): the length is not coerced to one
full day regardless of the declared length. -/
theorem C3_counterexample :
    c3.is_project = true
    ∧ (generate_instances [c3] [g3] []).map (·.length_minutes) = [some 450]
    ∧ (450 : Nat) ≠ PERIODS_PER_DAY * 90 := by
  decide

/-- C3 amended: for a project course the generator emits, per kind,
exactly one occurrence per eligible group with `sessions_per_week = 1`,
`has_instructor = false` (and the CP model gives it no instructor
variable); the length is coerced to one full day only when the declared
length is absent, zero or below `PERIODS_PER_DAY × 90` — an explicitly
larger declared length is kept. -/
theorem C3_amended :
    (∀ (c : Course) (k : Kind) (tg : List Group) (ts : List Section),
      c.is_project = true → instancesForKind c k tg ts = tg.map (mkProjectInstance c k))
    ∧ (∀ (c : Course) (k : Kind) (g : Group),
      (mkProjectInstance c k g).sessions_per_week = 1
      ∧ (mkProjectInstance c k g).has_instructor = false
      ∧ (mkProjectInstance c k g).length_minutes = some (projectLen k.length))
    ∧ (∀ L : Nat, L < PERIODS_PER_DAY * 90 → projectLen (some L) = PERIODS_PER_DAY * 90)
    ∧ (∀ (instructors : List Instructor) (c : Course) (k : Kind) (g : Group),
      instr_domain instructors (mkProjectInstance c k g) = none) := by
  refine ⟨?_, ?_, ?_, ?_⟩
  · intro c k tg ts hp
    rw [instancesForKind, if_pos (by rw [hp])]
  · intro c k g
    exact ⟨rfl, rfl, rfl⟩
  · intro L hL
    rw [projectLen, if_neg (by omega)]
  · intro instructors c k g
    simp [instr_domain, mkProjectInstance]

/-- Witness for C3's amended claim on the concrete project course. -/
theorem C3_amended_witness :
    instancesForKind c3 k3 [g3] [] = [g3].map (mkProjectInstance c3 k3)
    ∧ projectLen (some 100) = PERIODS_PER_DAY * 90 :=
  ⟨C3_amended.1 c3 k3 [g3] [] (by decide),
   C3_amended.2.2.1 100 (by decide)⟩

/-- Witness for C9 at a concrete state and assignment. -/
theorem C9_place_remove_inverse_witness :
    (Scheduler._remove_assignment (Scheduler._place_assignment emptySt wA) wA).timetable
        = emptySt.timetable
    ∧ (Scheduler._remove_assignment (Scheduler._place_assignment emptySt wA) wA).instructor_busy
        = emptySt.instructor_busy
    ∧ (Scheduler._remove_assignment (Scheduler._place_assignment emptySt wA) wA).room_busy
        = emptySt.room_busy :=
  C9_place_remove_inverse emptySt wA (by decide)

end TT
